/-
Verification of the Psi backend analysis pipeline.

Shallow embedding of the services in `backend/app/services/` :
`image_recognition.py`, `nutrition_analysis.py`, `emotion_analysis.py`,
`recipe_matching.py` and `database_service.py`.  Python floats are
embedded as rationals (ℚ), Python ints as ℤ/ℕ, dictionaries as
association lists or functions on finite key types, and fallible
operations as `Except`/`Option` values.  The results of the external
collaborators (Redis cache, YOLO model, Claude API, PostgreSQL) are
passed in as explicit arguments, so every function is pure and
executable.
-/
import Mathlib

namespace Psi

/-! ## QuantityEstimator — `ImageRecognitionService.estimate_portion_size`

`estimate_portion_size(bbox, image_size=(640,640))` :
`food_pixels = (x2-x1)*(y2-y1)`, `total_pixels = w*h`,
`ratio = food_pixels/total_pixels`, `grams = (ratio/0.5)*200`,
returns `max(50, min(500, grams))`. -/

/-- Embeds `ImageRecognitionService.estimate_portion_size` (bbox given as
`(x1, y1, x2, y2)`, image size as `(w, h)`). -/
def estimate_portion_size (x1 y1 x2 y2 : ℚ) (w h : ℚ) : ℚ :=
  let food_pixels := (x2 - x1) * (y2 - y1)
  let total_pixels := w * h
  let ratio := food_pixels / total_pixels
  let estimated_grams := (ratio / (1/2)) * 200
  max 50 (min 500 estimated_grams)

/-! ## UsageLedger — `DatabaseService.check_daily_usage` /
`DatabaseService.increment_daily_usage` -/

/-- Whitelist `DatabaseService.ALLOWED_USAGE_TYPES`. -/
def ALLOWED_USAGE_TYPES : List String :=
  ["food_analyses", "fridge_analyses", "wellness_checks"]

/-- The errors raised by `DatabaseService` usage accounting:
`ValueError` for a non-whitelisted usage type, `ServiceUnavailableError`
(fail closed) when the check query fails, `DatabaseError` when the
increment query fails. -/
inductive UsageError
  | valueError
  | serviceUnavailableError
  | databaseError
  deriving DecidableEq, Repr

/-- Embeds `DatabaseService.check_daily_usage`.  The result of
`db.execute_one(query, user_id, today)` is passed in as `dbResult` :
`.error ()` when the query raises, `.ok (some n)` when a row with count
`n` is returned, `.ok none` when no row exists.  On a query error the
source raises `ServiceUnavailableError` (fail closed). -/
def check_daily_usage (user_id : String) (usage_type : String)
    (dbResult : Except Unit (Option ℕ)) : Except UsageError ℕ :=
  if usage_type ∉ ALLOWED_USAGE_TYPES then
    .error .valueError
  else
    match dbResult with
    | .ok (some n) => .ok n
    | .ok none => .ok 0
    | .error _ => .error .serviceUnavailableError

/-- The quota gate of `FoodAnalysisService.process_food_image`
(`food_enhanced.py` lines 162-166): the count from `check_daily_usage`
is compared with the free-tier limit; an exception from the check
propagates (`.error (.inl e)`), a count at or above the limit raises
HTTP 429 (`.error (.inr ())`), otherwise the pipeline proceeds. -/
def quota_gate (limit : ℕ) (check : Except UsageError ℕ) :
    Except (UsageError ⊕ Unit) Unit :=
  match check with
  | .error e => .error (.inl e)
  | .ok n => if n ≥ limit then .error (.inr ()) else .ok ()

/-- One row of the `daily_usage` table: the three per-feature counters
of a `(user_id, date)` pair. -/
structure UsageRow where
  food_analyses : ℕ
  fridge_analyses : ℕ
  wellness_checks : ℕ
  deriving DecidableEq, Repr

/-- The counter column of a `daily_usage` row selected by the (already
whitelist-validated) `usage_type` string spliced into the query. -/
def UsageRow.get (r : UsageRow) (usage_type : String) : ℕ :=
  if usage_type = "food_analyses" then r.food_analyses
  else if usage_type = "fridge_analyses" then r.fridge_analyses
  else if usage_type = "wellness_checks" then r.wellness_checks
  else 0

/-- The update `SET {usage_type} = daily_usage.{usage_type} + 1` on one
row. -/
def UsageRow.inc (r : UsageRow) (usage_type : String) : UsageRow :=
  if usage_type = "food_analyses" then { r with food_analyses := r.food_analyses + 1 }
  else if usage_type = "fridge_analyses" then { r with fridge_analyses := r.fridge_analyses + 1 }
  else if usage_type = "wellness_checks" then { r with wellness_checks := r.wellness_checks + 1 }
  else r

/-- The `daily_usage` table: one row per `(user_id, date)` key (the
`ON CONFLICT (user_id, date)` target), dates abstracted as ℕ. -/
def UsageTable := List ((String × ℕ) × UsageRow)

/-- Modelled from the spec: the `daily_usage` DDL is not under `src/`,
only the query text is.  Per §3 a `UsageCounter` is "created lazily on
first use", so the counter columns not named by the `INSERT` default
to 0.  This is the PostgreSQL semantics of the single statement
`INSERT ... VALUES (..., 1) ON CONFLICT (user_id, date) DO UPDATE SET
{usage_type} = daily_usage.{usage_type} + 1 RETURNING {usage_type}` :
when no row with the key exists a fresh row with the named column at 1
is inserted, otherwise the existing row's named column is incremented;
either way the named column's new value is returned.  It is the
spec §6 "atomic upsert-increment-and-return primitive": one storage
operation, not a read-modify-write pair. -/
def upsert_increment (tbl : UsageTable) (user_id : String) (date : ℕ)
    (usage_type : String) : UsageTable × ℕ :=
  match tbl.find? (fun row => row.1 = (user_id, date)) with
  | none =>
      let fresh := UsageRow.inc ⟨0, 0, 0⟩ usage_type
      (((user_id, date), fresh) :: tbl, fresh.get usage_type)
  | some row =>
      let updated := row.2.inc usage_type
      let tbl' := tbl.map (fun q =>
        if q.1 = (user_id, date) then (q.1, updated) else q)
      (tbl', updated.get usage_type)

/-- Embeds `DatabaseService.increment_daily_usage`: whitelist check,
then the single upsert query; a storage failure raises `DatabaseError`
(not modelled further here — the claims below concern the success
path). -/
def increment_daily_usage (tbl : UsageTable) (user_id : String) (date : ℕ)
    (usage_type : String) : Except UsageError (UsageTable × ℕ) :=
  if usage_type ∉ ALLOWED_USAGE_TYPES then
    .error .valueError
  else
    .ok (upsert_increment tbl user_id date usage_type)

/-! ## EmotionClassifier — `EmotionAnalysisService`

`EMOTION_RULES` maps each of the 8 `EmotionType` values to a rules dict
with keys `'hrv'`, `'hr'`, `'coherence'`; every value is a `(min, max)`
tuple except ANXIETY's `'hrv'`, which is the string `'unstable'`. -/

/-- The 8 emotion categories of `app.models.emotion.EmotionType`. -/
inductive EmotionType
  | stress
  | fatigue
  | anxiety
  | happiness
  | excitement
  | calmness
  | focus
  | apathy
  deriving DecidableEq, Repr

/-- A value of the `'hrv'` key in `EMOTION_RULES`: a `(min, max)` tuple,
or the string `'unstable'` (used only by ANXIETY). -/
inductive HrvRule
  | interval (lo hi : ℚ)
  | unstable
  deriving DecidableEq, Repr

/-- One entry of `EMOTION_RULES` (the `'hr'` and `'coherence'` values
are tuples for every profile). -/
structure EmotionRules where
  hrv : HrvRule
  hr : ℚ × ℚ
  coherence : ℚ × ℚ
  deriving DecidableEq, Repr

/-- Embeds `EmotionAnalysisService.EMOTION_RULES`. -/
def EMOTION_RULES : EmotionType → EmotionRules
  | .stress => ⟨.interval 20 50, (85, 120), (0, 1/2)⟩
  | .fatigue => ⟨.interval 20 40, (50, 70), (0, 3/10)⟩
  | .anxiety => ⟨.unstable, (85, 120), (0, 3/10)⟩
  | .happiness => ⟨.interval 60 100, (70, 85), (4/5, 1)⟩
  | .excitement => ⟨.interval 40 60, (90, 110), (3/5, 9/10)⟩
  | .calmness => ⟨.interval 70 100, (55, 70), (4/5, 1)⟩
  | .focus => ⟨.interval 50 70, (80, 95), (9/10, 1)⟩
  | .apathy => ⟨.interval 30 50, (50, 65), (3/10, 3/5)⟩

/-- Insertion order of the `EMOTION_RULES` dict, i.e. the iteration
order of `classify_emotion`'s scoring loop. -/
def EMOTION_RULES_order : List EmotionType :=
  [.stress, .fatigue, .anxiety, .happiness, .excitement, .calmness, .focus, .apathy]

/-- One `score +=` block of `_calculate_emotion_score` against a
`(lo, hi)` tuple: full `weight` inside the interval, otherwise
`max(0, weight - distance_to_nearest_bound * decay)`. -/
def interval_score (x lo hi weight decay : ℚ) : ℚ :=
  if lo ≤ x ∧ x ≤ hi then weight
  else max 0 (weight - min |x - lo| |x - hi| * decay)

/-- The HRV block of `_calculate_emotion_score` runs under
`isinstance(rules['hrv'], tuple)`: an interval contributes
`interval_score` with weight 40 and decay 0.5; the string `'unstable'`
fails the test, the block is skipped, and nothing is added. -/
def hrv_rule_score (hrv : ℚ) : HrvRule → ℚ
  | .interval lo hi => interval_score hrv lo hi 40 (1/2)
  | .unstable => 0

/-- Embeds `EmotionAnalysisService._calculate_emotion_score`: `score`
starts at 0, the HRV block adds `hrv_rule_score` (weight 40, decay
0.5), the HR block adds its `interval_score` (weight 40, decay 0.5),
the coherence block adds its `interval_score` (weight 20, decay 20 —
the steeper falloff of the source), and the result is
`min(100, score)`. -/
def calculate_emotion_score (hrv hr coherence : ℚ) (rules : EmotionRules) : ℚ :=
  min 100 (hrv_rule_score hrv rules.hrv
    + interval_score hr rules.hr.1 rules.hr.2 40 (1/2)
    + interval_score coherence rules.coherence.1 rules.coherence.2 20 20)

/-- Python `int(...)` conversion: truncation toward zero. -/
def py_int (q : ℚ) : ℤ :=
  if 0 ≤ q then ⌊q⌋ else ⌈q⌉

/-- Result model `app.models.emotion.EmotionAnalysisResult`
(`all_emotions` keeps the score-descending order in which the dict is
built). -/
structure EmotionAnalysisResult where
  type : EmotionType
  score : ℤ
  all_emotions : List (EmotionType × ℚ)
  hrv : ℚ
  heart_rate : ℚ
  deriving DecidableEq, Repr

/-- Embeds `EmotionAnalysisService.classify_emotion`: score all 8
profiles in dict order, stable-sort by score descending
(`emotions.sort(key=..., reverse=True)`), take the top entry; the
confidence score is `int(top_score)`. -/
def classify_emotion (hrv hr coherence : ℚ) : EmotionAnalysisResult :=
  let emotions := EMOTION_RULES_order.map
    (fun t => (t, calculate_emotion_score hrv hr coherence (EMOTION_RULES t)))
  let sorted := emotions.mergeSort (fun a b => decide (b.2 ≤ a.2))
  let top := sorted.headD (.stress, 0)
  { type := top.1
    score := py_int top.2
    all_emotions := sorted
    hrv := hrv
    heart_rate := hr }

/-! ## HybridDetector — `ImageRecognitionService.analyze_food_image`

The external collaborators are passed in as arguments: the Redis cache
lookup result, the YOLO primary inference result (primary-classifier
failure would propagate before the fallback stage, so the embedding
takes an already-produced candidate list), and the Claude fallback call
outcome.  The configured threshold is
`settings.YOLO_HIGH_CONFIDENCE_THRESHOLD` (default 0.8). -/

/-- One detection dict `{'class', 'confidence', 'bbox',
['weight_grams']}` (`cls` stands for the `'class'` key; `weight_grams`
is present only on Claude-produced detections). -/
structure Detection where
  cls : String
  confidence : ℚ
  bbox : List ℚ
  weight_grams : Option ℚ
  deriving DecidableEq, Repr

/-- One entry of the `"foods"` array in Claude's JSON reply;
`weight_grams := none` models a missing `'weight_grams'` key
(read with `food.get('weight_grams', 200)`). -/
structure ClaudeFood where
  name : String
  confidence : ℚ
  weight_grams : Option ℚ
  deriving DecidableEq, Repr

/-- Claude's parsed JSON reply; `foods := none` models a reply without
a `'foods'` key (`if 'foods' in claude_results` fails). -/
structure ClaudeResult where
  foods : Option (List ClaudeFood)
  deriving DecidableEq, Repr

/-- Default `settings.YOLO_HIGH_CONFIDENCE_THRESHOLD`. -/
def YOLO_HIGH_CONFIDENCE_THRESHOLD : ℚ := 4/5

/-- Embeds `ImageRecognitionService._merge_detections`: when the Claude
result has a `'foods'` key it fully replaces the YOLO list (placeholder
bbox `[0, 0, 640, 640]`, weight defaulting to 200), otherwise the YOLO
results are kept. -/
def merge_detections (yolo_results : List Detection)
    (claude_results : ClaudeResult) : List Detection :=
  match claude_results.foods with
  | some foods =>
      foods.map (fun food =>
        { cls := food.name
          confidence := food.confidence
          bbox := [0, 0, 640, 640]
          weight_grams := some (food.weight_grams.getD 200) })
  | none => yolo_results

/-- Mean confidence of `analyze_food_image` stage 4:
`sum(d['confidence'] for d in detections) / len(detections) if
detections else 0`. -/
def avg_confidence (detections : List Detection) : ℚ :=
  if detections.isEmpty then 0
  else (detections.map (·.confidence)).sum / detections.length

/-- The ways an `analyze_food_image` call can fail: the unparseable
statement at `image_recognition.py:168` (its cache `get` call ends in
a stray `1`, a `SyntaxError`), or an exception raised by the
`_run_claude_inference` fallback. -/
inductive AnalyzeError
  | syntaxError
  | fallbackFailure
  deriving DecidableEq, Repr

/-- Outcome of one `analyze_food_image` call: the returned value (or
the propagated exception) together with the number of times the Claude
fallback was invoked. -/
structure AnalyzeOutcome where
  result : Except AnalyzeError (List Detection)
  fallback_calls : ℕ
  deriving Repr

/-- Embeds `ImageRecognitionService.analyze_food_image` as staged: its
second statement (`image_recognition.py:168`) ends in a stray `1`
right after the cache `get` call and does not parse, so the function
body has no runtime semantics — every call fails at that statement,
before the cache result is inspected, any classifier runs or the
fallback is reached, whatever the collaborators would have
returned. -/
def analyze_food_image (cached : Option (List Detection))
    (yolo : List Detection) (claude : Except Unit ClaudeResult)
    (threshold : ℚ) : AnalyzeOutcome :=
  ⟨.error .syntaxError, 0⟩

/-- The evident intent of `analyze_food_image` once the stray `1` is
deleted from line 168 — the flow its own docstring documents (stages
1—5): a cache hit returns the cached list; otherwise the primary
candidate list's mean confidence gates the Claude fallback, whose
parsed reply replaces the candidates via `_merge_detections`.  Even in
this repaired body the fallback call at line 196 has no surrounding
`try`/`except`, so a fallback failure (`claude = .error ()`) propagates
out as an exception. -/
def analyze_food_image_repaired (cached : Option (List Detection))
    (yolo : List Detection) (claude : Except Unit ClaudeResult)
    (threshold : ℚ) : AnalyzeOutcome :=
  match cached with
  | some cached_result => ⟨.ok cached_result, 0⟩
  | none =>
      let detections := yolo
      if avg_confidence detections < threshold then
        match claude with
        | .ok claude_results => ⟨.ok (merge_detections detections claude_results), 1⟩
        | .error _ => ⟨.error .fallbackFailure, 1⟩
      else
        ⟨.ok detections, 0⟩

/-! ## NutritionAggregator — `NutritionAnalysisService`

`get_nutrition_info` stage 3 scales the per-100g reference row by
`portion_grams / 100.0` and rounds each nutrient to one decimal;
`calculate_total_nutrition` sums the 11 fixed nutrient keys across all
items that carry a `'nutrition'` dict (`.get(key, 0)` for missing
keys) and rounds each total to one decimal. -/

/-- The 11 numeric nutrient keys of the `total` dict in
`calculate_total_nutrition` (also the scaled keys of
`get_nutrition_info` besides `name` and `portion_grams`). -/
inductive NutrientKey
  | calories
  | protein
  | carbs
  | fat
  | fiber
  | sugar
  | sodium
  | calcium
  | iron
  | vitamin_a
  | vitamin_c
  deriving DecidableEq, Repr

/-- The fixed key list of the `total` dict, in insertion order. -/
def nutrient_keys : List NutrientKey :=
  [.calories, .protein, .carbs, .fat, .fiber, .sugar, .sodium,
   .calcium, .iron, .vitamin_a, .vitamin_c]

/-- Python `round(·)` to an integer: round half to even. -/
def round_half_even (q : ℚ) : ℤ :=
  let f := ⌊q⌋
  let r := q - f
  if r < 1/2 then f
  else if 1/2 < r then f + 1
  else if 2 ∣ f then f else f + 1

/-- Python `round(x, 1)`: round to one decimal place. -/
def round1 (q : ℚ) : ℚ :=
  (round_half_even (10 * q) : ℚ) / 10

/-- Embeds stage 3 of `NutritionAnalysisService.get_nutrition_info`:
`multiplier = portion_grams / 100.0`, each nutrient of the per-100g
reference row `ref` becomes `round(ref[k] * multiplier, 1)`. -/
def scale_nutrition (ref : NutrientKey → ℚ) (portion_grams : ℚ) :
    NutrientKey → ℚ :=
  fun k => round1 (ref k * (portion_grams / 100))

/-- Dict lookup `item['nutrition'].get(key, 0)` on an association-list
nutrition dict (a key absent from the item contributes 0). -/
def nutrition_get (nutrition : List (NutrientKey × ℚ)) (k : NutrientKey) : ℚ :=
  ((nutrition.find? (fun p => p.1 = k)).map (·.2)).getD 0

/-- The nutrition dict produced by `get_nutrition_info` for a per-100g
reference row and a portion: every nutrient key present, scaled. -/
def profile_items (ref : NutrientKey → ℚ) (portion_grams : ℚ) :
    List (NutrientKey × ℚ) :=
  nutrient_keys.map (fun k => (k, scale_nutrition ref portion_grams k))

/-- Embeds `NutritionAnalysisService.calculate_total_nutrition`: items
without a `'nutrition'` key (`none`) are skipped, matching keys are
summed with `.get(key, 0)`, and every total is rounded to one
decimal. -/
def calculate_total_nutrition
    (food_items : List (Option (List (NutrientKey × ℚ)))) :
    NutrientKey → ℚ :=
  fun k => round1 (((food_items.filterMap id).map
    (fun nutrition => nutrition_get nutrition k)).sum)

/-! ## RecipeMatcher — `RecipeMatchingService`

`match_recipes` filters the catalog to recipes with a 70%+
case-insensitive ingredient match (`_search_recipes`), scores each
candidate (`_score_by_emotion`, `_calculate_ingredient_match`), sorts
by `(emotion_score + ingredient_match) / 2` descending (Python's
stable sort with `reverse=True`) and returns the first `top_k`
(`candidates[:top_k]`, with `top_k` a count, modelled as ℕ). -/

/-- One catalog recipe (the dict shape of
`RecipeMatchingService._load_recipes`). -/
structure Recipe where
  recipe_id : String
  name : String
  ingredients : List String
  cooking_time : ℚ
  difficulty : String
  emotion_types : List String
  deriving DecidableEq, Repr

/-- `set(ing.lower() for ing in l)` : the lower-cased ingredient set,
as a duplicate-free list. -/
def lower_set (l : List String) : List String :=
  (l.map String.toLower).dedup

/-- Cardinality of a set intersection, `len(xs & ys)` for the
duplicate-free lists produced by `lower_set`. -/
def inter_count (xs ys : List String) : ℕ :=
  (xs.filter (fun i => decide (i ∈ ys))).length

/-- A candidate dict built by `_search_recipes`: the recipe plus its
`available_ingredients` / `total_ingredients` counts. -/
structure Candidate where
  recipe : Recipe
  available_ingredients : ℕ
  total_ingredients : ℕ
  deriving DecidableEq, Repr

/-- Embeds `RecipeMatchingService._search_recipes`: keep a recipe iff
`match_count / total_needed >= 0.7` over the lower-cased ingredient
sets.  (On a recipe with an empty ingredient set the source raises
`ZeroDivisionError`; the theorems below therefore assume every catalog
recipe has at least one ingredient, on which domain this total
embedding agrees with the source.) -/
def search_recipes (recipes : List Recipe) (ingredients : List String) :
    List Candidate :=
  let ingredient_set := lower_set ingredients
  recipes.filterMap (fun recipe =>
    let recipe_ingredients := lower_set recipe.ingredients
    let match_count := inter_count recipe_ingredients ingredient_set
    let total_needed := recipe_ingredients.length
    if (match_count : ℚ) / (total_needed : ℚ) ≥ 7/10 then
      some ⟨recipe, match_count, total_needed⟩
    else none)

/-- Embeds `RecipeMatchingService._calculate_ingredient_match`. -/
def calculate_ingredient_match (available required : List String) : ℚ :=
  let available_set := lower_set available
  let required_set := lower_set required
  if required_set.isEmpty then 0
  else (inter_count required_set available_set : ℚ) / (required_set.length : ℚ)

/-- The `emotion_preferences` dict of `_score_by_emotion`: preferred
cooking-time window and difficulty per emotion (`None` for an unknown
emotion, where `prefs.get` yields `{}`). -/
def emotion_preferences (emotion_type : String) :
    Option ((ℚ × ℚ) × String) :=
  if emotion_type = "stress" then some ((5, 15), "easy")
  else if emotion_type = "fatigue" then some ((10, 20), "easy")
  else if emotion_type = "anxiety" then some ((5, 10), "easy")
  else if emotion_type = "happiness" then some ((20, 40), "medium")
  else if emotion_type = "excitement" then some ((15, 30), "medium")
  else if emotion_type = "calmness" then some ((20, 40), "medium")
  else if emotion_type = "focus" then some ((25, 45), "hard")
  else if emotion_type = "apathy" then some ((5, 15), "easy")
  else none

/-- Embeds `RecipeMatchingService._score_by_emotion`: base 0.5, up to
0.25 for proximity of the cooking time to the window midpoint, a flat
0.25 for an exact difficulty match, capped at 1.0. -/
def score_by_emotion (recipe : Recipe) (emotion_type : String) : ℚ :=
  let base_score : ℚ := 1/2
  match emotion_preferences emotion_type with
  | none => min 1 base_score
  | some ((target_min, target_max), pref_difficulty) =>
      let target_avg := (target_min + target_max) / 2
      let time_diff := |recipe.cooking_time - target_avg|
      let time_score := max 0 (1 - time_diff / 30)
      let base_score := base_score + time_score * (1/4)
      let base_score :=
        if recipe.difficulty = pref_difficulty then base_score + 1/4 else base_score
      min 1 base_score

/-- A candidate after stage 2 of `match_recipes` added its
`emotion_score` and `ingredient_match` entries. -/
structure ScoredCandidate where
  candidate : Candidate
  emotion_score : ℚ
  ingredient_match : ℚ
  deriving DecidableEq, Repr

/-- The stage-3 ranking key `(emotion_score + ingredient_match) / 2`. -/
def final_score (c : ScoredCandidate) : ℚ :=
  (c.emotion_score + c.ingredient_match) / 2

/-- Embeds `RecipeMatchingService.match_recipes` (the catalog
`self.recipes` is passed in as `recipes`). -/
def match_recipes (recipes : List Recipe) (ingredients : List String)
    (emotion_type : String) (top_k : ℕ) : List ScoredCandidate :=
  let candidates := search_recipes recipes ingredients
  let scored := candidates.map (fun c =>
    ScoredCandidate.mk c (score_by_emotion c.recipe emotion_type)
      (calculate_ingredient_match ingredients c.recipe.ingredients))
  let sorted := scored.mergeSort (fun a b => decide (final_score b ≤ final_score a))
  sorted.take top_k

/-- The catalog installed by `RecipeMatchingService._load_recipes`. -/
def loaded_recipes : List Recipe :=
  [{ recipe_id := "1"
     name := "Simple Pasta"
     ingredients := ["pasta", "tomato", "garlic", "olive oil"]
     cooking_time := 15
     difficulty := "easy"
     emotion_types := ["stress", "fatigue"] }]

/-! ## Theorems -/

/-- C6: for every bounding box and positive image area,
`estimate_portion_size` returns exactly
`clamp((regionArea / imageArea / 0.5) * 200, 50, 500)`; a region
covering half the image yields exactly 200g, a zero-area region yields
50g, and a region covering the whole image yields at most 500g. -/
theorem C6_estimate_portion_size (x1 y1 x2 y2 w h : ℚ) (hpos : 0 < w * h) :
    estimate_portion_size x1 y1 x2 y2 w h =
      max 50 (min 500 ((((x2 - x1) * (y2 - y1)) / (w * h) / (1/2)) * 200)) ∧
    ((x2 - x1) * (y2 - y1) = (w * h) / 2 →
      estimate_portion_size x1 y1 x2 y2 w h = 200) ∧
    ((x2 - x1) * (y2 - y1) = 0 →
      estimate_portion_size x1 y1 x2 y2 w h = 50) ∧
    ((x2 - x1) * (y2 - y1) = w * h →
      estimate_portion_size x1 y1 x2 y2 w h ≤ 500) := by
  have hne : w * h ≠ 0 := ne_of_gt hpos
  refine ⟨rfl, ?_, ?_, ?_⟩ <;> intro harea <;>
    simp only [estimate_portion_size, harea]
  · have hr : w * h / 2 / (w * h) = 1/2 := by field_simp; ring
    rw [hr]; norm_num
  · norm_num
  · have hr : w * h / (w * h) = 1 := div_self hne
    rw [hr]; norm_num

/-- Witness for C6 at a concrete input: a 640×320 box in a 640×640
image covers half the frame and is estimated at exactly 200g. -/
theorem C6_witness : estimate_portion_size 0 0 640 320 640 640 = 200 :=
  (C6_estimate_portion_size 0 0 640 320 640 640 (by norm_num)).2.1 (by norm_num)

/-- C1: for every whitelisted feature key, when the backing-store query
raises, `check_daily_usage` raises `ServiceUnavailableError` instead of
returning any usage count, and the caller's quota gate therefore
rejects the feature call (fail closed). -/
theorem C1_check_daily_usage_fail_closed (user_id : String)
    (usage_type : String) (h : usage_type ∈ ALLOWED_USAGE_TYPES)
    (limit : ℕ) :
    check_daily_usage user_id usage_type (.error ()) =
      .error .serviceUnavailableError ∧
    (∀ n : ℕ, check_daily_usage user_id usage_type (.error ()) ≠ .ok n) ∧
    quota_gate limit (check_daily_usage user_id usage_type (.error ())) ≠
      .ok () := by
  have hcheck : check_daily_usage user_id usage_type (.error ()) =
      .error .serviceUnavailableError := by
    simp [check_daily_usage, h]
  refine ⟨hcheck, ?_, ?_⟩
  · intro n
    rw [hcheck]
    exact fun hcontra => Except.noConfusion hcontra
  · rw [hcheck]
    simp [quota_gate]

/-- Witness for C1 at the concrete key `food_analyses` and limit 3. -/
theorem C1_witness :
    check_daily_usage "user-1" "food_analyses" (.error ()) =
      .error .serviceUnavailableError ∧
    quota_gate 3 (check_daily_usage "user-1" "food_analyses" (.error ())) ≠
      .ok () := by
  have h := C1_check_daily_usage_fail_closed "user-1" "food_analyses"
    (by decide) 3
  exact ⟨h.1, h.2.2⟩

/-- The selected counter column after `UsageRow.inc` on a whitelisted
usage type is one more than before. -/
lemma UsageRow.get_inc (r : UsageRow) (usage_type : String)
    (h : usage_type ∈ ALLOWED_USAGE_TYPES) :
    (r.inc usage_type).get usage_type = r.get usage_type + 1 := by
  simp only [ALLOWED_USAGE_TYPES, List.mem_cons, List.not_mem_nil, or_false] at h
  rcases h with h | h | h <;> subst h <;> simp [UsageRow.inc, UsageRow.get]

/-- C9: `increment_daily_usage` is the single atomic upsert of the
source query: with no row for `(user_id, date)` it creates one whose
selected counter is 1 and returns 1; with an existing row it bumps that
row's selected counter and returns the post-increment count.  No
separate read-modify-write pair exists: the whole operation is one
`upsert_increment` primitive. -/
theorem C9_increment_daily_usage (tbl : UsageTable) (user_id : String)
    (date : ℕ) (usage_type : String) (h : usage_type ∈ ALLOWED_USAGE_TYPES) :
    (tbl.find? (fun row => row.1 = (user_id, date)) = none →
      ∃ tbl', increment_daily_usage tbl user_id date usage_type = .ok (tbl', 1) ∧
        ∃ r, tbl'.find? (fun row => row.1 = (user_id, date)) =
            some ((user_id, date), r) ∧ r.get usage_type = 1) ∧
    (∀ row0, tbl.find? (fun row => row.1 = (user_id, date)) = some row0 →
      increment_daily_usage tbl user_id date usage_type =
        .ok (tbl.map (fun q => if q.1 = (user_id, date) then
              (q.1, row0.2.inc usage_type) else q),
            row0.2.get usage_type + 1)) := by
  have hzero : (UsageRow.get ⟨0, 0, 0⟩ usage_type) = 0 := by
    unfold UsageRow.get; split_ifs <;> rfl
  have hfresh : (UsageRow.inc ⟨0, 0, 0⟩ usage_type).get usage_type = 1 := by
    rw [UsageRow.get_inc _ _ h, hzero]
  constructor
  · intro hnone
    refine ⟨((user_id, date), UsageRow.inc ⟨0, 0, 0⟩ usage_type) :: tbl, ?_, ?_⟩
    · simp [increment_daily_usage, h, upsert_increment, hnone, hfresh]
    · refine ⟨UsageRow.inc ⟨0, 0, 0⟩ usage_type, ?_, hfresh⟩
      rw [List.find?_cons_of_pos]
      simp
  · intro row0 hsome
    simp [increment_daily_usage, h, upsert_increment, hsome,
      UsageRow.get_inc _ _ h]

/-- Witness for C9: two consecutive increments of `food_analyses` for
the same user and date, starting from an empty table, return 1 and
then 2. -/
theorem C9_witness :
    (∃ tbl', increment_daily_usage ([] : UsageTable) "user-1" 0
        "food_analyses" = .ok (tbl', 1)) ∧
    increment_daily_usage [(("user-1", 0), ⟨1, 0, 0⟩)] "user-1" 0
        "food_analyses" = .ok ([(("user-1", 0), ⟨2, 0, 0⟩)], 2) := by
  have hmem : "food_analyses" ∈ ALLOWED_USAGE_TYPES := by decide
  constructor
  · obtain ⟨tbl', htbl', -⟩ :=
      (C9_increment_daily_usage [] "user-1" 0 "food_analyses" hmem).1 rfl
    exact ⟨tbl', htbl'⟩
  · have h2 := (C9_increment_daily_usage [(("user-1", 0), ⟨1, 0, 0⟩)]
      "user-1" 0 "food_analyses" hmem).2 (("user-1", 0), ⟨1, 0, 0⟩) (by decide)
    simpa [UsageRow.inc, UsageRow.get] using h2

/-- C2 counterexample: a primary result with mean confidence 0.4
(below the 0.8 threshold) and a failing fallback: `analyze_food_image`
does not swallow the failure and return the primary result — as staged
the call dies at the line-168 syntax error before any classification,
and even with the stray `1` of that line deleted the fallback's
exception propagates out of the repaired body. -/
theorem C2_counterexample :
    (analyze_food_image none [⟨"apple", 2/5, [0, 0, 10, 10], none⟩]
      (.error ()) YOLO_HIGH_CONFIDENCE_THRESHOLD).result =
      .error .syntaxError ∧
    (analyze_food_image none [⟨"apple", 2/5, [0, 0, 10, 10], none⟩]
      (.error ()) YOLO_HIGH_CONFIDENCE_THRESHOLD).result ≠
      .ok [⟨"apple", 2/5, [0, 0, 10, 10], none⟩] ∧
    (analyze_food_image_repaired none [⟨"apple", 2/5, [0, 0, 10, 10], none⟩]
      (.error ()) YOLO_HIGH_CONFIDENCE_THRESHOLD).result =
      .error .fallbackFailure ∧
    (analyze_food_image_repaired none [⟨"apple", 2/5, [0, 0, 10, 10], none⟩]
      (.error ()) YOLO_HIGH_CONFIDENCE_THRESHOLD).result ≠
      .ok [⟨"apple", 2/5, [0, 0, 10, 10], none⟩] := by
  have hrep : (analyze_food_image_repaired none
      [⟨"apple", 2/5, [0, 0, 10, 10], none⟩] (.error ())
      YOLO_HIGH_CONFIDENCE_THRESHOLD).result = .error .fallbackFailure := by
    norm_num [analyze_food_image_repaired, avg_confidence,
      YOLO_HIGH_CONFIDENCE_THRESHOLD]
  refine ⟨rfl, ?_, hrep, ?_⟩
  · exact fun hcontra => Except.noConfusion hcontra
  · rw [hrep]
    exact fun hcontra => Except.noConfusion hcontra

/-- C2 amended: `analyze_food_image` never swallows a fallback failure
and degrades to the primary result; as staged, every call fails with
the line-168 syntax error before any classifier runs, and in the body
with that stray `1` deleted the un-guarded fallback call of line 196
propagates the fallback's failure to the caller whenever the primary
mean confidence is below the high-confidence threshold, so in neither
reading is the primary result returned. -/
theorem C2_fallback_failure_propagates (cached : Option (List Detection))
    (yolo : List Detection) (claude : Except Unit ClaudeResult)
    (threshold : ℚ) (h : avg_confidence yolo < threshold) :
    (analyze_food_image cached yolo claude threshold).result =
      .error .syntaxError ∧
    (∀ l, (analyze_food_image cached yolo claude threshold).result ≠ .ok l) ∧
    (analyze_food_image_repaired none yolo (.error ()) threshold).result =
      .error .fallbackFailure ∧
    (∀ l, (analyze_food_image_repaired none yolo (.error ()) threshold).result ≠
      .ok l) := by
  have hrep : (analyze_food_image_repaired none yolo (.error ()) threshold).result =
      .error .fallbackFailure := by
    simp [analyze_food_image_repaired, h]
  refine ⟨rfl, ?_, hrep, ?_⟩
  · exact fun l hcontra => Except.noConfusion hcontra
  · intro l
    rw [hrep]
    exact fun hcontra => Except.noConfusion hcontra

/-- Witness for C2 amended at a concrete low-confidence input. -/
theorem C2_witness :
    (analyze_food_image none [⟨"banana", 1/2, [0, 0, 10, 10], none⟩]
      (.error ()) YOLO_HIGH_CONFIDENCE_THRESHOLD).result =
      .error .syntaxError ∧
    (analyze_food_image_repaired none [⟨"banana", 1/2, [0, 0, 10, 10], none⟩]
      (.error ()) YOLO_HIGH_CONFIDENCE_THRESHOLD).result =
      .error .fallbackFailure := by
  have h := C2_fallback_failure_propagates none
    [⟨"banana", 1/2, [0, 0, 10, 10], none⟩] (.error ())
    YOLO_HIGH_CONFIDENCE_THRESHOLD
    (by norm_num [avg_confidence, YOLO_HIGH_CONFIDENCE_THRESHOLD])
  exact ⟨h.1, h.2.2.1⟩

/-- C3: the confidence-gated fallback flow the claim — and the
function's own docstring — describes cannot run: at the failing input
(cache miss, one primary candidate at confidence 0.4, a fallback reply
carrying two foods) the staged `analyze_food_image` fails with the
line-168 syntax error and performs no fallback call, while the same
body with the stray `1` deleted invokes the fallback exactly once and
returns its output in place of the primary candidate list. -/
theorem C3_syntax_error_failing_input :
    (analyze_food_image none [⟨"apple", 2/5, [0, 0, 10, 10], none⟩]
      (.ok ⟨some [⟨"rice", 9/10, some 150⟩, ⟨"soup", 4/5, none⟩]⟩)
      YOLO_HIGH_CONFIDENCE_THRESHOLD).result = .error .syntaxError ∧
    (analyze_food_image none [⟨"apple", 2/5, [0, 0, 10, 10], none⟩]
      (.ok ⟨some [⟨"rice", 9/10, some 150⟩, ⟨"soup", 4/5, none⟩]⟩)
      YOLO_HIGH_CONFIDENCE_THRESHOLD).fallback_calls = 0 ∧
    (analyze_food_image_repaired none [⟨"apple", 2/5, [0, 0, 10, 10], none⟩]
      (.ok ⟨some [⟨"rice", 9/10, some 150⟩, ⟨"soup", 4/5, none⟩]⟩)
      YOLO_HIGH_CONFIDENCE_THRESHOLD).fallback_calls = 1 ∧
    (analyze_food_image_repaired none [⟨"apple", 2/5, [0, 0, 10, 10], none⟩]
      (.ok ⟨some [⟨"rice", 9/10, some 150⟩, ⟨"soup", 4/5, none⟩]⟩)
      YOLO_HIGH_CONFIDENCE_THRESHOLD).result =
    .ok [⟨"rice", 9/10, [0, 0, 640, 640], some 150⟩,
         ⟨"soup", 4/5, [0, 0, 640, 640], some 200⟩] := by
  have hlt : avg_confidence [⟨"apple", 2/5, [0, 0, 10, 10], none⟩] <
      YOLO_HIGH_CONFIDENCE_THRESHOLD := by
    norm_num [avg_confidence, YOLO_HIGH_CONFIDENCE_THRESHOLD]
  refine ⟨rfl, rfl, ?_, ?_⟩
  · simp [analyze_food_image_repaired, hlt]
  · simp [analyze_food_image_repaired, hlt, merge_detections]

/-- Rounding an integer-valued rational changes nothing. -/
lemma round_half_even_intCast (z : ℤ) : round_half_even (z : ℚ) = z := by
  unfold round_half_even
  norm_num

/-- Every `round1` result is an integer number of tenths. -/
lemma round1_tenths (q : ℚ) : ∃ z : ℤ, round1 q = z / 10 :=
  ⟨round_half_even (10 * q), rfl⟩

/-- A sum of one-decimal values is already one-decimal, so the final
`round(v, 1)` of `calculate_total_nutrition` leaves it unchanged. -/
lemma round1_sum {l : List ℚ} (h : ∀ x ∈ l, ∃ z : ℤ, x = z / 10) :
    round1 l.sum = l.sum := by
  have hsum : ∃ Z : ℤ, l.sum = Z / 10 := by
    induction l with
    | nil => exact ⟨0, by simp⟩
    | cons x t ih =>
        obtain ⟨z, hz⟩ := h x (List.mem_cons_self x t)
        obtain ⟨Z, hZ⟩ := ih (fun y hy => h y (List.mem_cons_of_mem x hy))
        refine ⟨z + Z, ?_⟩
        rw [List.sum_cons, hz, hZ]
        push_cast
        ring
  obtain ⟨Z, hZ⟩ := hsum
  rw [hZ]
  unfold round1
  rw [show (10 : ℚ) * (Z / 10) = (Z : ℚ) by ring_nf, round_half_even_intCast]

/-- Looking a key up in the full scaled profile of one item yields its
scaled value. -/
lemma nutrition_get_profile_items (ref : NutrientKey → ℚ) (g : ℚ)
    (k : NutrientKey) :
    nutrition_get (profile_items ref g) k = scale_nutrition ref g k := by
  cases k <;> rfl

/-- C7: the total of `calculate_total_nutrition` over items whose
nutrition dicts are the `get_nutrition_info` profiles (per-100-unit
reference scaled by grams/100 and rounded to one decimal) is exactly
the element-wise sum of those per-item profiles; the total is invariant
under reordering of the items; a nutrient key absent from an item
contributes zero; and each per-item value is
`round(ref[k] * grams/100, 1)`. -/
theorem C7_calculate_total_nutrition
    (pairs : List ((NutrientKey → ℚ) × ℚ)) (k : NutrientKey)
    (items items' : List (Option (List (NutrientKey × ℚ))))
    (hperm : items.Perm items') :
    calculate_total_nutrition
        (pairs.map (fun p => some (profile_items p.1 p.2))) k =
      (pairs.map (fun p => scale_nutrition p.1 p.2 k)).sum ∧
    calculate_total_nutrition items k = calculate_total_nutrition items' k ∧
    (∀ nutrition : List (NutrientKey × ℚ), (∀ p ∈ nutrition, p.1 ≠ k) →
      nutrition_get nutrition k = 0) ∧
    (∀ (ref : NutrientKey → ℚ) (grams : ℚ),
      scale_nutrition ref grams k = round1 (ref k * (grams / 100))) := by
  refine ⟨?_, ?_, ?_, fun ref grams => rfl⟩
  · unfold calculate_total_nutrition
    have hfm : (pairs.map (fun p => some (profile_items p.1 p.2))).filterMap id =
        pairs.map (fun p => profile_items p.1 p.2) := by
      induction pairs with
      | nil => rfl
      | cons a t ih => simpa [List.filterMap_cons] using ih
    rw [hfm, List.map_map]
    have hmap : ((fun nutrition => nutrition_get nutrition k) ∘
        fun p : (NutrientKey → ℚ) × ℚ => profile_items p.1 p.2) =
        fun p : (NutrientKey → ℚ) × ℚ => scale_nutrition p.1 p.2 k := by
      funext p
      exact nutrition_get_profile_items p.1 p.2 k
    rw [hmap]
    apply round1_sum
    intro x hx
    obtain ⟨p, -, hp⟩ := List.mem_map.mp hx
    exact hp ▸ round1_tenths (p.1 k * (p.2 / 100))
  · unfold calculate_total_nutrition
    rw [List.Perm.sum_eq (List.Perm.map _ (List.Perm.filterMap id hperm))]
  · intro nutrition habs
    unfold nutrition_get
    rw [List.find?_eq_none.mpr]
    · rfl
    · intro p hp
      simpa using habs p hp

/-- Witness for C7: the spec's example — item A of 100g at 50 kcal per
100g and item B of 200g at 25 kcal per 100g total exactly 100 kcal. -/
theorem C7_witness :
    calculate_total_nutrition
      [some (profile_items (fun _ => 50) 100),
       some (profile_items (fun _ => 25) 200)] NutrientKey.calories = 100 := by
  have h := (C7_calculate_total_nutrition
    [(fun _ => 50, 100), (fun _ => 25, 200)] NutrientKey.calories
    [] [] (List.Perm.refl [])).1
  rw [show ([(fun _ => (50:ℚ), (100:ℚ)), (fun _ => 25, 200)].map
      (fun p => some (profile_items p.1 p.2))) =
      [some (profile_items (fun _ => 50) 100),
       some (profile_items (fun _ => 25) 200)] from rfl] at h
  rw [h]
  norm_num [scale_nutrition, round1, round_half_even]

lemma interval_score_nonneg (x lo hi weight decay : ℚ) (hw : 0 ≤ weight) :
    0 ≤ interval_score x lo hi weight decay := by
  unfold interval_score
  split_ifs
  · exact hw
  · exact le_max_left 0 _

lemma interval_score_le (x lo hi weight decay : ℚ) (hw : 0 ≤ weight)
    (hd : 0 ≤ decay) : interval_score x lo hi weight decay ≤ weight := by
  unfold interval_score
  split_ifs
  · exact le_refl weight
  · refine max_le hw ?_
    have hmin : 0 ≤ min |x - lo| |x - hi| := le_min (abs_nonneg _) (abs_nonneg _)
    nlinarith

lemma hrv_rule_score_nonneg (hrv : ℚ) (r : HrvRule) : 0 ≤ hrv_rule_score hrv r := by
  cases r with
  | interval lo hi => exact interval_score_nonneg _ _ _ _ _ (by norm_num)
  | unstable => exact le_refl 0

lemma hrv_rule_score_le (hrv : ℚ) (r : HrvRule) : hrv_rule_score hrv r ≤ 40 := by
  cases r with
  | interval lo hi => exact interval_score_le _ _ _ _ _ (by norm_num) (by norm_num)
  | unstable => norm_num [hrv_rule_score]

lemma calculate_emotion_score_nonneg (hrv hr coherence : ℚ)
    (rules : EmotionRules) : 0 ≤ calculate_emotion_score hrv hr coherence rules := by
  unfold calculate_emotion_score
  refine le_min (by norm_num) ?_
  have h1 := hrv_rule_score_nonneg hrv rules.hrv
  have h2 := interval_score_nonneg hr rules.hr.1 rules.hr.2 40 (1/2) (by norm_num)
  have h3 := interval_score_nonneg coherence rules.coherence.1 rules.coherence.2
    20 20 (by norm_num)
  linarith

lemma calculate_emotion_score_le_100 (hrv hr coherence : ℚ)
    (rules : EmotionRules) : calculate_emotion_score hrv hr coherence rules ≤ 100 :=
  min_le_left _ _

lemma mem_EMOTION_RULES_order (t : EmotionType) : t ∈ EMOTION_RULES_order := by
  cases t <;> simp [EMOTION_RULES_order]

lemma headD_mem {α : Type} (l : List α) (d : α) (h : l ≠ []) : l.headD d ∈ l := by
  cases l with
  | nil => exact absurd rfl h
  | cons a t => exact List.mem_cons_self a t

/-- The `all_emotions` distribution holds exactly the pairs
`(t, score of t)` for the 8 emotion types. -/
lemma all_emotions_spec (hrv hr coherence : ℚ) (p : EmotionType × ℚ) :
    p ∈ (classify_emotion hrv hr coherence).all_emotions ↔
      p.2 = calculate_emotion_score hrv hr coherence (EMOTION_RULES p.1) := by
  simp only [classify_emotion, List.mem_mergeSort, List.mem_map]
  constructor
  · rintro ⟨t, -, ht⟩
    rw [← ht]
  · intro h2
    exact ⟨p.1, mem_EMOTION_RULES_order p.1, by rw [← h2]⟩

/-- The winner reported by `classify_emotion` is one of the scored
pairs, and the confidence score is `int()` of its score. -/
lemma classify_emotion_top (hrv hr coherence : ℚ) :
    ∃ q, ((classify_emotion hrv hr coherence).type, q) ∈
        (classify_emotion hrv hr coherence).all_emotions ∧
      (classify_emotion hrv hr coherence).score = py_int q := by
  have hne : (classify_emotion hrv hr coherence).all_emotions ≠ [] := by
    intro hnil
    have hlen := congrArg List.length hnil
    simp [classify_emotion, EMOTION_RULES_order] at hlen
  refine ⟨((classify_emotion hrv hr coherence).all_emotions.headD
    (.stress, 0)).2, ?_, ?_⟩
  · have hmem := headD_mem _ (((EmotionType.stress : EmotionType), (0:ℚ))) hne
    have hpair : ((classify_emotion hrv hr coherence).type,
        ((classify_emotion hrv hr coherence).all_emotions.headD (.stress, 0)).2) =
        (classify_emotion hrv hr coherence).all_emotions.headD (.stress, 0) := rfl
    rw [hpair]
    exact hmem
  · rfl

lemma py_int_nonneg {q : ℚ} (h : 0 ≤ q) : 0 ≤ py_int q := by
  unfold py_int
  rw [if_pos h]
  exact Int.le_floor.mpr (by exact_mod_cast h)

lemma py_int_le {q : ℚ} {n : ℤ} (h : q ≤ (n : ℚ)) : py_int q ≤ n := by
  unfold py_int
  split_ifs
  · exact (Int.floor_le_floor h).trans_eq (Int.floor_intCast n)
  · exact Int.ceil_le.mpr h

/-- C4: for every input triple, `classify_emotion` returns a label from
the fixed 8-category set, a confidence score in [0, 100], and an
`all_emotions` distribution holding a score for each of the 8 labels,
every one of them in [0, 100]. -/
theorem C4_classify_emotion_ranges (hrv hr coherence : ℚ) :
    (classify_emotion hrv hr coherence).type ∈ EMOTION_RULES_order ∧
    0 ≤ (classify_emotion hrv hr coherence).score ∧
    (classify_emotion hrv hr coherence).score ≤ 100 ∧
    (∀ t : EmotionType, ∃ q,
      (t, q) ∈ (classify_emotion hrv hr coherence).all_emotions) ∧
    (∀ p ∈ (classify_emotion hrv hr coherence).all_emotions,
      0 ≤ p.2 ∧ p.2 ≤ 100) := by
  obtain ⟨q, hmem, hscore⟩ := classify_emotion_top hrv hr coherence
  have hq := (all_emotions_spec hrv hr coherence _).mp hmem
  dsimp at hq
  refine ⟨mem_EMOTION_RULES_order _, ?_, ?_, ?_, ?_⟩
  · rw [hscore]
    exact py_int_nonneg (hq ▸ calculate_emotion_score_nonneg hrv hr coherence _)
  · rw [hscore]
    refine py_int_le ?_
    rw [hq]
    exact_mod_cast calculate_emotion_score_le_100 hrv hr coherence _
  · intro t
    exact ⟨calculate_emotion_score hrv hr coherence (EMOTION_RULES t),
      (all_emotions_spec hrv hr coherence _).mpr rfl⟩
  · intro p hp
    have hp2 := (all_emotions_spec hrv hr coherence p).mp hp
    rw [hp2]
    exact ⟨calculate_emotion_score_nonneg hrv hr coherence _,
      calculate_emotion_score_le_100 hrv hr coherence _⟩

/-- Witness for C4 at the concrete reading (hrv 65, hr 72,
coherence 0.5): the calmness label carries a score in the
distribution, and the confidence score is within [0, 100]. -/
theorem C4_witness :
    (∃ q, (EmotionType.calmness, q) ∈
      (classify_emotion 65 72 (1/2)).all_emotions) ∧
    0 ≤ (classify_emotion 65 72 (1/2)).score ∧
    (classify_emotion 65 72 (1/2)).score ≤ 100 := by
  have h := C4_classify_emotion_ranges 65 72 (1/2)
  exact ⟨h.2.2.2.1 .calmness, h.2.1, h.2.2.1⟩

/-- C5 counterexample: the anxiety profile's variability sub-score is
not a distinct instability measure — two readings that differ only in
variability (hrv 100 vs hrv 30, same rate and coherence) produce the
identical anxiety score 60, which is exactly the rate (40) plus
coherence (20) contributions with nothing for variability. -/
theorem C5_counterexample :
    calculate_emotion_score 100 100 (1/10) (EMOTION_RULES .anxiety) =
      calculate_emotion_score 30 100 (1/10) (EMOTION_RULES .anxiety) ∧
    calculate_emotion_score 100 100 (1/10) (EMOTION_RULES .anxiety) = 60 := by
  constructor
  · rfl
  · norm_num [calculate_emotion_score, EMOTION_RULES, hrv_rule_score,
      interval_score]

/-- C5 amended: the `'unstable'` variability marker of the anxiety
profile has no dedicated evaluation case: it fails the
`isinstance(..., tuple)` test, the variability block is skipped and
contributes 0, so the anxiety score is independent of the variability
input. -/
theorem C5_unstable_no_instability_measure (hrv hrv' hr coherence : ℚ) :
    calculate_emotion_score hrv hr coherence (EMOTION_RULES .anxiety) =
      calculate_emotion_score hrv' hr coherence (EMOTION_RULES .anxiety) ∧
    hrv_rule_score hrv (EMOTION_RULES .anxiety).hrv = 0 := by
  exact ⟨rfl, rfl⟩

/-- C10: the anxiety score is capped at 60 for every input — the
40-point variability sub-score always contributes 0 for the
`'unstable'` marker — so an anxiety classification never carries a
confidence score above 60. -/
theorem C10_anxiety_score_at_most_60 (hrv hr coherence : ℚ) :
    calculate_emotion_score hrv hr coherence (EMOTION_RULES .anxiety) ≤ 60 ∧
    ((classify_emotion hrv hr coherence).type = .anxiety →
      (classify_emotion hrv hr coherence).score ≤ 60) := by
  have hcap : calculate_emotion_score hrv hr coherence (EMOTION_RULES .anxiety) ≤ 60 := by
    unfold calculate_emotion_score
    refine (min_le_right _ _).trans ?_
    have h1 : hrv_rule_score hrv (EMOTION_RULES .anxiety).hrv = 0 := rfl
    have h2 := interval_score_le hr (EMOTION_RULES .anxiety).hr.1
      (EMOTION_RULES .anxiety).hr.2 40 (1/2) (by norm_num) (by norm_num)
    have h3 := interval_score_le coherence (EMOTION_RULES .anxiety).coherence.1
      (EMOTION_RULES .anxiety).coherence.2 20 20 (by norm_num) (by norm_num)
    linarith
  refine ⟨hcap, fun htype => ?_⟩
  obtain ⟨q, hmem, hscore⟩ := classify_emotion_top hrv hr coherence
  have hq := (all_emotions_spec hrv hr coherence _).mp hmem
  dsimp at hq
  rw [htype] at hq
  rw [hscore]
  refine py_int_le ?_
  rw [hq]
  exact_mod_cast hcap

/-- Witness for C10 at a concrete reading inside the anxiety hr and
coherence intervals: the anxiety score is (at most) 60. -/
theorem C10_witness :
    calculate_emotion_score 50 100 (1/10) (EMOTION_RULES .anxiety) ≤ 60 :=
  (C10_anxiety_score_at_most_60 50 100 (1/10)).1

lemma lower_set_ne_nil {l : List String} (h : l ≠ []) : lower_set l ≠ [] := by
  simp only [lower_set, ne_eq, List.dedup_eq_nil, List.map_eq_nil_iff]
  exact h

/-- When every (lower-cased) required ingredient is available the
intersection is the whole required set. -/
lemma inter_count_full {xs ys : List String} (h : ∀ i ∈ xs, i ∈ ys) :
    inter_count xs ys = xs.length := by
  unfold inter_count
  rw [List.filter_eq_self.mpr]
  intro a ha
  exact decide_eq_true (h a ha)

/-- `_calculate_ingredient_match` on a non-empty required list is the
intersection-over-required ratio used by the `_search_recipes`
filter. -/
lemma ingredient_match_eq (avail : List String) {req : List String}
    (h : req ≠ []) :
    calculate_ingredient_match avail req =
      (inter_count (lower_set req) (lower_set avail) : ℚ) /
        ((lower_set req).length : ℚ) := by
  unfold calculate_ingredient_match
  rw [if_neg]
  simp only [ne_eq, List.isEmpty_iff]
  exact lower_set_ne_nil h

/-- Unfolding membership in the `_search_recipes` candidate list. -/
lemma mem_search_recipes {recipes : List Recipe} {ingredients : List String}
    {c : Candidate} (hc : c ∈ search_recipes recipes ingredients) :
    ∃ r ∈ recipes, c.recipe = r ∧
      c = ⟨r, inter_count (lower_set r.ingredients) (lower_set ingredients),
        (lower_set r.ingredients).length⟩ ∧
      (7:ℚ)/10 ≤ (inter_count (lower_set r.ingredients) (lower_set ingredients) : ℚ) /
        ((lower_set r.ingredients).length : ℚ) := by
  unfold search_recipes at hc
  obtain ⟨r, hr, hsome⟩ := List.mem_filterMap.mp hc
  dsimp only at hsome
  split_ifs at hsome with hcond
  · obtain rfl : (⟨r, inter_count (lower_set r.ingredients) (lower_set ingredients),
        (lower_set r.ingredients).length⟩ : Candidate) = c :=
      Option.some_inj.mp hsome
    exact ⟨r, hr, rfl, rfl, hcond⟩

/-- C8: `match_recipes` returns only recipes whose case-insensitive
ingredient match ratio is at least 0.70, sorted descending by
`(emotion_score + ingredient_match) / 2`, at most `top_k` of them; a
recipe all of whose required ingredients are available has ratio
exactly 1; and every returned entry carries exactly the
`_score_by_emotion` and `_calculate_ingredient_match` values of its
recipe.  (The hypothesis excludes catalog recipes with an empty
ingredient list, on which the source raises `ZeroDivisionError`.) -/
theorem C8_match_recipes (recipes : List Recipe) (ingredients : List String)
    (emotion_type : String) (top_k : ℕ)
    (hne : ∀ r ∈ recipes, r.ingredients ≠ []) :
    (∀ c ∈ match_recipes recipes ingredients emotion_type top_k,
      (7:ℚ)/10 ≤ c.ingredient_match) ∧
    (match_recipes recipes ingredients emotion_type top_k).Pairwise
      (fun a b => final_score b ≤ final_score a) ∧
    (match_recipes recipes ingredients emotion_type top_k).length ≤ top_k ∧
    (∀ c ∈ match_recipes recipes ingredients emotion_type top_k,
      (∀ i ∈ lower_set c.candidate.recipe.ingredients, i ∈ lower_set ingredients) →
      c.ingredient_match = 1) ∧
    (∀ c ∈ match_recipes recipes ingredients emotion_type top_k,
      c.emotion_score = score_by_emotion c.candidate.recipe emotion_type ∧
      c.ingredient_match =
        calculate_ingredient_match ingredients c.candidate.recipe.ingredients) := by
  have hmem : ∀ c ∈ match_recipes recipes ingredients emotion_type top_k,
      ∃ c0 ∈ search_recipes recipes ingredients,
        c = ⟨c0, score_by_emotion c0.recipe emotion_type,
          calculate_ingredient_match ingredients c0.recipe.ingredients⟩ := by
    intro c hc
    unfold match_recipes at hc
    have hc2 := List.mem_mergeSort.mp (List.mem_of_mem_take hc)
    obtain ⟨c0, hc0, hceq⟩ := List.mem_map.mp hc2
    exact ⟨c0, hc0, hceq.symm⟩
  refine ⟨?_, ?_, ?_, ?_, ?_⟩
  · intro c hc
    obtain ⟨c0, hc0, hceq⟩ := hmem c hc
    obtain ⟨r, hr, hrrec, -, hratio⟩ := mem_search_recipes hc0
    have hmatch : c.ingredient_match =
        calculate_ingredient_match ingredients c0.recipe.ingredients := by
      rw [hceq]
    rw [hmatch, hrrec, ingredient_match_eq ingredients (hne r hr)]
    exact hratio
  · unfold match_recipes
    have htrans : ∀ a b c : ScoredCandidate,
        (fun a b => decide (final_score b ≤ final_score a)) a b →
        (fun a b => decide (final_score b ≤ final_score a)) b c →
        (fun a b => decide (final_score b ≤ final_score a)) a c := by
      intro a b c hab hbc
      simp only [decide_eq_true_eq] at *
      exact le_trans hbc hab
    have htotal : ∀ a b : ScoredCandidate,
        ((fun a b => decide (final_score b ≤ final_score a)) a b ||
         (fun a b => decide (final_score b ≤ final_score a)) b a) = true := by
      intro a b
      simp only [Bool.or_eq_true, decide_eq_true_eq]
      exact le_total (final_score b) (final_score a)
    have hsorted := List.sorted_mergeSort htrans htotal
      ((search_recipes recipes ingredients).map (fun c =>
        ScoredCandidate.mk c (score_by_emotion c.recipe emotion_type)
          (calculate_ingredient_match ingredients c.recipe.ingredients)))
    have hpw := List.Pairwise.sublist (List.take_sublist top_k _) hsorted
    exact hpw.imp (fun hab => of_decide_eq_true hab)
  · unfold match_recipes
    exact List.length_take_le top_k _
  · intro c hc hall
    obtain ⟨c0, hc0, hceq⟩ := hmem c hc
    obtain ⟨r, hr, hrrec, -, -⟩ := mem_search_recipes hc0
    have hmatch : c.ingredient_match =
        calculate_ingredient_match ingredients c0.recipe.ingredients := by
      rw [hceq]
    have hrec : c.candidate.recipe = c0.recipe := by rw [hceq]
    rw [hmatch, hrrec, ingredient_match_eq ingredients (hne r hr),
      inter_count_full (by rw [hrec, hrrec] at hall; exact hall)]
    have hlen : ((lower_set r.ingredients).length : ℚ) ≠ 0 := by
      exact_mod_cast List.length_pos.mpr (lower_set_ne_nil (hne r hr)) |>.ne'
    rw [div_self hlen]
  · intro c hc
    obtain ⟨c0, -, hceq⟩ := hmem c hc
    rw [hceq]
    exact ⟨rfl, rfl⟩

/-- Witness for C8: the loaded catalog, the four available ingredients
of the spec's example and `top_k = 3`: at most 3 recipes come back and
each has a match ratio of at least 0.7. -/
theorem C8_witness :
    (match_recipes loaded_recipes ["tomato", "pasta", "garlic", "olive oil"]
      "stress" 3).length ≤ 3 ∧
    ∀ c ∈ match_recipes loaded_recipes ["tomato", "pasta", "garlic", "olive oil"]
      "stress" 3, (7:ℚ)/10 ≤ c.ingredient_match := by
  have h := C8_match_recipes loaded_recipes
    ["tomato", "pasta", "garlic", "olive oil"] "stress" 3
    (by intro r hr; simp only [loaded_recipes, List.mem_singleton] at hr;
        rw [hr]; simp)
  exact ⟨h.2.2.1, h.1⟩

end Psi
